import Mathlib

/-!
Shallow embedding of the `lmterminal` command-line client (repository
`sderev/lmterminal`) and proofs about the claims of its specification.

The embedding follows the current package `src/lmterminal/` (the packages
`src/lmt_cli/` and `src/lmt/` are earlier generations of the same program,
kept in the repository; where a claim refers to them this is noted at the
corresponding definition).

Python values are modelled as follows:
* `str` becomes `String`; optional CLI strings (`None` in Python) are
  modelled as `""`, which is sound here because the code only ever uses
  them through truthiness (`if system:`) and through `x or ""`, and both
  treat `None` and `""` identically;
* a YAML template document (a Python `dict`) becomes an association list
  `List (String × Option String)` with unique keys, `Option` capturing
  YAML `null` values;
* fallible code becomes `Except`/`Option`;
* the external tokenizer library (`tiktoken`) is a parameter: a partial
  map from model names to encodings, an encoding being a function from a
  string to its token count.
-/

deriving instance DecidableEq for Except

namespace LMT

/-! ### Python string primitives

Helpers mirroring the Python string methods used by the source:
`str.rstrip`, `str.strip`, `str.endswith`, `str.lower`, `str.join`.
-/

/-- Whitespace characters stripped by Python `str.strip`/`str.rstrip`
(ASCII fragment: space, tab, newline, carriage return, vertical tab,
form feed). -/
def pyIsSpace (c : Char) : Bool :=
  c = ' ' || c = '\t' || c = '\n' || c = '\r' || c = '\x0B' || c = '\x0C'

/-- Drops trailing `pyIsSpace` characters from a character list. -/
def pyRstripList (l : List Char) : List Char :=
  (l.reverse.dropWhile pyIsSpace).reverse

/-- Python `s.rstrip()`. -/
def pyRstrip (s : String) : String :=
  String.mk (pyRstripList s.data)

/-- Python `s.strip()`. -/
def pyStrip (s : String) : String :=
  String.mk (pyRstripList (s.data.dropWhile pyIsSpace))

/-- Python `s.endswith(suffix)`. -/
def pyEndsWith (s suffix : String) : Bool :=
  suffix.data.isSuffixOf s.data

/-- Python `s.lower()` (ASCII fragment; every name in the program's model
catalog is ASCII). -/
def pyLower (s : String) : String :=
  String.mk (s.data.map Char.toLower)

/-- Python `"".join(l)` (concatenation of a list of strings). -/
def joinStrings (l : List String) : String :=
  l.foldr (· ++ ·) ""

/-- Python `sep.join(l)`, used by the CLI as `" ".join(prompt_input)`. -/
def joinWith (sep : String) (l : List String) : String :=
  String.intercalate sep l

/-! ### Template documents -/

/-- Association-list lookup mirroring Python `dict` access with unique
keys (first match wins). -/
def dictGet {α : Type} : List (String × α) → String → Option α
  | [], _ => none
  | (k, v) :: rest, q => if q = k then some v else dictGet rest q

/-- A loaded template YAML document: a dictionary whose values may be
YAML `null` (`Option.none`). -/
abbrev TemplateDict : Type := List (String × Option String)

/-- The process-wide default model constant
(`src/lmterminal/lib.py` line 21, `src/lmterminal/gpt_integration.py`
line 12). -/
def DEFAULT_MODEL : String := "gpt-4o-mini"

/-! ### `src/lmterminal/templates.py` -/

/-- Embedding of the inner function `update_content` of
`prepare_prompt_from_template` (`src/lmterminal/templates.py`
lines 30-34):

```
existing_value = template_content.get(key, "")
if existing_value is None:
    existing_value = ""
return existing_value.rstrip() + (content or "")
```

The embedding passes the dictionary state through explicitly, so that
(non-)mutation of the loaded template is visible in the type: the
function only reads `template_content`, hence returns it unchanged. -/
def update_content (template_content : TemplateDict) (key content : String) :
    TemplateDict × String :=
  let existing_value : String :=
    match dictGet template_content key with
    | none => ""
    | some none => ""
    | some (some s) => s
  (template_content, pyRstrip existing_value ++ content)

/-- Truthiness-based model resolution of `prepare_prompt_from_template`
(`src/lmterminal/templates.py` lines 41-44):

```
if model != DEFAULT_MODEL:
    updated_model = model
else:
    updated_model = template_content.get("model", model) or DEFAULT_MODEL
```

A `None` or empty template field is falsy in Python, so `or` replaces it
with `DEFAULT_MODEL`. -/
def resolve_template_model (template_content : TemplateDict) (model : String) : String :=
  if model ≠ DEFAULT_MODEL then model
  else
    match dictGet template_content "model" with
    | none => if model ≠ "" then model else DEFAULT_MODEL
    | some none => DEFAULT_MODEL
    | some (some s) => if s ≠ "" then s else DEFAULT_MODEL

/-- Embedding of `prepare_prompt_from_template`
(`src/lmterminal/templates.py` lines 11-46), with the template dictionary
passed in explicitly (in the source it is loaded from disk by
`get_template_content`, an external collaborator) and threaded through so
that mutation would be visible. Returns the dictionary state after the
call together with the updated system text, updated user prompt and
resolved model. -/
def prepare_prompt_from_template (template_content : TemplateDict)
    (system user_prompt model : String) :
    TemplateDict × String × String × String :=
  let (d1, updated_system) := update_content template_content "system" system
  let (d2, updated_user_prompt) := update_content d1 "user" user_prompt
  (d2, updated_system, updated_user_prompt, resolve_template_model d2 model)

/-- Projection: the resolved model of a composed prompt. -/
def composed_model (template_content : TemplateDict) (system user_prompt model : String) :
    String :=
  (prepare_prompt_from_template template_content system user_prompt model).2.2.2

theorem composed_model_eq (d : TemplateDict) (s u m : String) :
    composed_model d s u m = resolve_template_model d m := rfl

/-- C1: model resolution precedence of `prepare_prompt_from_template`
(`src/lmterminal/templates.py` lines 39-44). For every template document
and every model argument: an argument different from the default sentinel
wins; otherwise a declared, non-null, non-empty template model wins;
otherwise the resolved model is the process-wide default constant. -/
theorem model_resolution_precedence (d : TemplateDict) (system user_prompt model : String) :
    (model ≠ DEFAULT_MODEL →
      composed_model d system user_prompt model = model) ∧
    (model = DEFAULT_MODEL → ∀ t, dictGet d "model" = some (some t) → t ≠ "" →
      composed_model d system user_prompt model = t) ∧
    (model = DEFAULT_MODEL →
      (dictGet d "model" = none ∨ dictGet d "model" = some none ∨
        dictGet d "model" = some (some "")) →
      composed_model d system user_prompt model = DEFAULT_MODEL) := by
  simp only [composed_model_eq]
  unfold resolve_template_model
  refine ⟨fun h => if_pos h, fun hm t ht htne => ?_, fun hm hc => ?_⟩
  · rw [if_neg (by simp [hm]), ht]
    simp [htne]
  · rw [if_neg (by simp [hm])]
    rcases hc with h | h | h <;> rw [h] <;> simp [hm, DEFAULT_MODEL]

/-- Witness for C1: the three branches of the precedence at concrete
inputs. -/
theorem model_resolution_precedence_witness :
    composed_model [] "" "" "gpt-4" = "gpt-4" ∧
    composed_model [("model", some "gpt-4")] "" "" DEFAULT_MODEL = "gpt-4" ∧
    composed_model [] "" "" DEFAULT_MODEL = DEFAULT_MODEL :=
  ⟨(model_resolution_precedence [] "" "" "gpt-4").1 (by decide),
   (model_resolution_precedence [("model", some "gpt-4")] "" "" DEFAULT_MODEL).2.1
     rfl "gpt-4" (by decide) (by decide),
   (model_resolution_precedence [] "" "" DEFAULT_MODEL).2.2 rfl (Or.inl rfl)⟩

/-- C6: composing a prompt from a template never mutates the loaded
template document. The state-passing embedding of
`prepare_prompt_from_template` (whose inner `update_content`,
`src/lmterminal/templates.py` lines 30-34, only reads the dictionary via
`dict.get`) returns the dictionary unchanged: no key added, no value
replaced, for every template document and every pair of overrides. The
prior generation `src/lmt_cli/templates.py` (`update_from_template`,
lines 24-34) used `dict.setdefault`, which does mutate; see
`update_from_template_mutates` below. -/
theorem compose_never_mutates_template (d : TemplateDict) (system user_prompt model : String) :
    (prepare_prompt_from_template d system user_prompt model).1 = d := rfl

/-- Embedding of the prior generation's `update_from_template`
(`src/lmt_cli/templates.py` lines 24-34):

```
existing_value = template_content.setdefault(key, "")
if existing_value is None:
    template_content[key] = existing_value = ""
return existing_value.rstrip() + (prompt or "")
```

`setdefault` inserts the key when missing, and a `None` value is
overwritten in place; the dictionary state after the call is returned
first. -/
def update_from_template (template_content : TemplateDict) (key prompt : String) :
    TemplateDict × String :=
  match dictGet template_content key with
  | none => (template_content ++ [(key, some "")], pyRstrip "" ++ prompt)
  | some none =>
      (template_content.map (fun kv => if kv.1 = key then (kv.1, some "") else kv),
        pyRstrip "" ++ prompt)
  | some (some s) => (template_content, pyRstrip s ++ prompt)

/-- The legacy `update_from_template` does mutate a template lacking the
requested key: the key is added to the dictionary. This is the "prior
generation's bug" the specification requires the composer to avoid. -/
theorem update_from_template_mutates :
    (update_from_template [] "system" "hello").1 = [("system", some "")] := by decide

/-! ### `src/lmterminal/lib.py`: emoji augmentation -/

/-- The fixed emoji instruction string of `add_emoji`
(`src/lmterminal/lib.py` lines 79-81; Python juxtaposes the two halves of
the literal). -/
def emoji_message : String :=
  "Add plenty of emojis as a colorful way to convey emotions. However, don't mention it."

/-- Embedding of `add_emoji` (`src/lmterminal/lib.py` lines 75-89):

```
system = system.rstrip()
if system == "":
    return emoji_message
if not system.endswith("."):
    system += "."
return system + " " + emoji_message
```
-/
def add_emoji (system : String) : String :=
  let system := pyRstrip system
  if system = "" then emoji_message
  else if pyEndsWith system "." then system ++ " " ++ emoji_message
  else (system ++ ".") ++ " " ++ emoji_message

/-- Counterexample to C3: the claim inserts a period only when the system
text does not already end with sentence-terminating punctuation, but the
code tests for a trailing period specifically (`system.endswith(".")`,
`src/lmterminal/lib.py` line 87). On `"Be terse!"` — which ends with the
sentence terminator `!` — the claim predicts
`"Be terse! " ++ emoji_message`, while the code inserts a period and
produces `"Be terse!. " ++ emoji_message`. -/
theorem add_emoji_period_counterexample :
    add_emoji "Be terse!" = "Be terse!. " ++ emoji_message ∧
    add_emoji "Be terse!" ≠ "Be terse! " ++ emoji_message := by
  constructor
  · decide
  · decide

/-- C3 (amended): for every system text `s`, the augmented text is
exactly the emoji instruction when the right-trimmed `s` is empty;
otherwise it is the right-trimmed `s`, with a period inserted first if
and only if the right-trimmed `s` does not already end with a period
(not: with any sentence-terminating punctuation), then a space, then the
instruction. In particular `"Be terse"` becomes
`"Be terse. " ++ emoji_message`. -/
theorem add_emoji_characterization :
    (∀ s : String, add_emoji s =
      if pyRstrip s = "" then emoji_message
      else if pyEndsWith (pyRstrip s) "." then pyRstrip s ++ " " ++ emoji_message
      else pyRstrip s ++ "." ++ " " ++ emoji_message) ∧
    add_emoji "Be terse" = "Be terse. " ++ emoji_message := by
  exact ⟨fun s => rfl, by decide⟩

/-! ### `src/lmterminal/gpt_integration.py`: streaming accumulation -/

/-- One chunk of a streamed chat response, seen through the fields the
code reads: `chunk["choices"][0]["delta"]` may in principle be `null`
(outer `Option`, filtered by `if chunk_message is not None`), and the
delta dictionary may lack a `"content"` key (inner `Option`, read with
`chunk_message.get("content", "")`). -/
abbrev StreamChunk := Option (Option String)

/-- Embedding of the streaming accumulation of `chatgpt_request`
(`src/lmterminal/gpt_integration.py` lines 58-78): every non-`None`
delta is appended to `collected_messages`, and the generated text is
`"".join([m.get("content", "") for m in collected_messages])`. -/
def chatgpt_request_stream_text (chunks : List StreamChunk) : String :=
  let collected_messages := chunks.filterMap id
  joinStrings (collected_messages.map (fun m => m.getD ""))

/-- Embedding of the newline normalization applied by `generate_response`
(`src/lmterminal/lib.py` lines 197-201) to the text returned by
`chatgpt_request`:

```
if not content.endswith("\n"):
    content += "\n"
```
-/
def generate_response_content (chunks : List StreamChunk) : String :=
  let content := chatgpt_request_stream_text chunks
  if pyEndsWith content "\n" then content else content ++ "\n"

/-- Restatement of the specification's words for the final streamed text:
the concatenation of the fragments' content strings, an empty string for
a fragment with no content, in arrival order with none dropped, with a
single line terminator appended if and only if the concatenation does not
already end with one. Compared against the source embedding in
`streaming_accumulation`. -/
def stream_final_text_spec (chunks : List StreamChunk) : String :=
  let t := joinStrings (chunks.map (fun c => (c.bind id).getD ""))
  if pyEndsWith t "\n" then t else t ++ "\n"

theorem empty_append_str (s : String) : "" ++ s = s := by
  cases s
  rfl

theorem stream_text_eq_concat (chunks : List StreamChunk) :
    chatgpt_request_stream_text chunks =
      joinStrings (chunks.map (fun c => (c.bind id).getD "")) := by
  induction chunks with
  | nil => rfl
  | cons c rest ih =>
      cases c with
      | none =>
          simp only [chatgpt_request_stream_text, joinStrings, List.filterMap_cons,
            List.map_cons, List.foldr_cons, id] at *
          rw [ih]
          exact (empty_append_str _).symm
      | some m =>
          simp only [chatgpt_request_stream_text, joinStrings, List.filterMap_cons,
            List.map_cons, List.foldr_cons, id] at *
          rw [ih]
          rfl

/-- C2: streaming accumulation with exactly-once newline normalization.
For every finite chunk sequence, the text `generate_response` hands back
to its caller is the concatenation of the chunks' content strings (empty
for a chunk with no content), in arrival order with none dropped, with a
single `"\n"` appended if and only if the concatenation does not already
end with one; in particular the fragments `["Hel", "lo", ", world"]`
yield `"Hello, world\n"`. -/
theorem streaming_accumulation :
    (∀ chunks : List StreamChunk,
      generate_response_content chunks = stream_final_text_spec chunks) ∧
    generate_response_content
      [some (some "Hel"), some (some "lo"), some (some ", world")] = "Hello, world\n" := by
  constructor
  · intro chunks
    simp only [generate_response_content, stream_final_text_spec,
      stream_text_eq_concat]
  · decide

/-! ### `src/lmterminal/gpt_integration.py`: token counting

The tokenizer library `tiktoken` is external to the repository, so it is
a parameter of the embedding: `tiktoken.encoding_for_model` becomes a
partial map from model names to encodings (raising `KeyError`, i.e.
`none`, on unknown models), and an encoding is abstracted by the token
count it assigns to a string.
-/

/-- An encoding, seen through the only use the code makes of it:
`len(encoding.encode(value))`. -/
abbrev Encoding := String → Nat

/-- Embedding of `num_tokens_from_string`
(`src/lmterminal/gpt_integration.py` lines 94-98):

```
encoding = tiktoken.encoding_for_model(model)
num_tokens = len(encoding.encode(string))
return num_tokens
```

There is no `try`/`except` here: a model unknown to the tokenizer makes
`tiktoken.encoding_for_model` raise `KeyError`, which propagates
(`Except.error`). -/
def num_tokens_from_string (encoding_for_model : String → Option Encoding)
    (string model : String) : Except Unit Nat :=
  match encoding_for_model model with
  | some encoding => .ok (encoding string)
  | none => .error ()

/-- The token count of one message: per-field token counts plus
`tokens_per_name` for a `"name"` field. -/
def message_tokens (encoding : Encoding) (message : List (String × String)) : Nat :=
  message.foldl (fun acc kv => acc + encoding kv.2 + (if kv.1 = "name" then 1 else 0)) 0

/-- The message-structure token count computed by the loop of
`num_tokens_from_messages` with a given encoding: `tokens_per_message`
(3) per message, the encoded length of every field value, 1 extra per
`"name"` field, plus the fixed reply priming of 3 tokens. -/
def num_tokens_with (encoding : Encoding)
    (messages : List (List (String × String))) : Nat :=
  messages.foldl (fun acc message => acc + 3 + message_tokens encoding message) 0 + 3

/-- Embedding of `num_tokens_from_messages`
(`src/lmterminal/gpt_integration.py` lines 101-120). The `Bool` result
records whether the non-fatal fallback warning was printed:

```
try:
    encoding = tiktoken.encoding_for_model(model)
except KeyError:
    print("Warning: model not found. Using cl100k_base encoding.")
    encoding = tiktoken.get_encoding("cl100k_base")
...
```
-/
def num_tokens_from_messages (encoding_for_model : String → Option Encoding)
    (cl100k_base : Encoding) (messages : List (List (String × String)))
    (model : String) : Nat × Bool :=
  match encoding_for_model model with
  | some encoding => (num_tokens_with encoding messages, false)
  | none => (num_tokens_with cl100k_base messages, true)

/-- Counterexample to C4: the claim asserts that `num_tokens_from_string`
also returns an integer count for a model with no known encoding, by
falling back to `cl100k_base`. It does not: it has no `try`/`except`, so
the tokenizer's `KeyError` propagates and the call aborts. Here the
tokenizer knows only `"gpt-4o-mini"` and the count of `"Hello"` for the
model `"not-a-model"` is an error, not a count. -/
theorem num_tokens_from_string_counterexample :
    num_tokens_from_string
      (fun m => if m = "gpt-4o-mini" then some (fun s => s.data.length) else none)
      "Hello" "not-a-model" = .error () := by
  rfl

/-- C4 (amended): only `num_tokens_from_messages` never aborts on an
unknown model — it falls back to the documented default `cl100k_base`
encoding and emits a non-fatal warning; `num_tokens_from_string` has no
fallback and propagates the tokenizer's `KeyError` for every model with
no known encoding. -/
theorem token_counting_fallback (encoding_for_model : String → Option Encoding)
    (cl100k_base : Encoding) (messages : List (List (String × String)))
    (string model : String) (h : encoding_for_model model = none) :
    num_tokens_from_string encoding_for_model string model = .error () ∧
    num_tokens_from_messages encoding_for_model cl100k_base messages model =
      (num_tokens_with cl100k_base messages, true) := by
  simp [num_tokens_from_string, num_tokens_from_messages, h]

/-- Witness for C4 (amended) at a concrete tokenizer, message list and
model. -/
theorem token_counting_fallback_witness :
    num_tokens_from_string (fun _ => none) "Hello" "mystery-model" = .error () ∧
    num_tokens_from_messages (fun _ => none) (fun s => s.data.length)
        [[("role", "user"), ("content", "hi")]] "mystery-model" =
      (num_tokens_with (fun s => s.data.length)
        [[("role", "user"), ("content", "hi")]], true) :=
  token_counting_fallback (fun _ => none) (fun s => s.data.length)
    [[("role", "user"), ("content", "hi")]] "Hello" "mystery-model" rfl

/-! ### `src/lmterminal/cli.py`: the model catalog and its validation -/

/-- Embedding of `VALID_MODELS` (`src/lmterminal/cli.py` lines 11-38), in
source order; `none` stands for a `None` alias tuple. -/
def VALID_MODELS : List (String × Option (List String)) :=
  [("gpt-3.5-turbo", some ["chatgpt", "3.5"]),
   ("gpt-3.5-turbo-instruct", none),
   ("gpt-4", some ["4", "gpt4"]),
   ("gpt-4-turbo", some ["4t", "4-turbo", "gpt4-turbo"]),
   ("gpt-4-32k", some ["4-32k", "gpt4-32k"]),
   ("gpt-4o", some ["4o"]),
   ("gpt-4o-2024-05-13", none),
   ("gpt-4o-mini", some ["4o-mini", "4omini", "4om"]),
   ("gpt-4o-mini-2024-07-18", none)]

/-- The lookup loop of `validate_model_name`
(`src/lmterminal/cli.py` lines 49-53):

```
for model, aliases in VALID_MODELS.items():
    if model_name == model:
        return model
    if aliases is not None and model_name in aliases:
        return model
```
-/
def lookup_valid_model : List (String × Option (List String)) → String → Option String
  | [], _ => none
  | (model, aliases) :: rest, model_name =>
    if model_name = model then some model
    else if model_name ∈ aliases.getD [] then some model
    else lookup_valid_model rest model_name

/-- Embedding of `validate_model_name` (`src/lmterminal/cli.py` lines
42-60): the input is lowercased, then looked up among canonical names and
aliases; a failed lookup raises `click.BadParameter`
(`Except.error`). -/
def validate_model_name (value : String) : Except Unit String :=
  match lookup_valid_model VALID_MODELS (pyLower value) with
  | some model => .ok model
  | none => .error ()

theorem lookup_valid_model_none (l : List (String × Option (List String))) (q : String)
    (h : ∀ p ∈ l, q ≠ p.1 ∧ ∀ a ∈ p.2.getD [], q ≠ a) :
    lookup_valid_model l q = none := by
  induction l with
  | nil => rfl
  | cons p rest ih =>
      obtain ⟨h1, h2⟩ := h p (List.mem_cons_self p rest)
      obtain ⟨m, aliases⟩ := p
      simp only [lookup_valid_model]
      rw [if_neg h1, if_neg (fun hmem => h2 q hmem rfl)]
      exact ih (fun p hp => h p (List.mem_cons_of_mem _ hp))

/-- C8: alias resolution of `validate_model_name` is a pure function into
canonical identifiers — every canonical name of the catalog resolves to
itself, every documented alias resolves to exactly one canonical model
(the one it is listed under; uniqueness holds because resolution is a
function and the first two conjuncts pin its value), and an input that
is (after lowercasing) neither an alias nor a canonical name raises
`click.BadParameter`. -/
theorem alias_resolution :
    (∀ p ∈ VALID_MODELS, validate_model_name p.1 = .ok p.1) ∧
    (∀ p ∈ VALID_MODELS, ∀ a ∈ p.2.getD [], validate_model_name a = .ok p.1) ∧
    (∀ s : String,
      (∀ p ∈ VALID_MODELS, pyLower s ≠ p.1 ∧ ∀ a ∈ p.2.getD [], pyLower s ≠ a) →
      validate_model_name s = .error ()) := by
  refine ⟨by decide, by decide, fun s h => ?_⟩
  unfold validate_model_name
  rw [lookup_valid_model_none VALID_MODELS (pyLower s) h]

/-- Witness for C8: a canonical name, an alias and an unknown string at
concrete inputs. -/
theorem alias_resolution_witness :
    validate_model_name "gpt-4o" = .ok "gpt-4o" ∧
    validate_model_name "4om" = .ok "gpt-4o-mini" ∧
    validate_model_name "llama-3" = .error () :=
  ⟨alias_resolution.1 ("gpt-4o", some ["4o"]) (by decide),
   alias_resolution.2.1 ("gpt-4o-mini", some ["4o-mini", "4omini", "4om"]) (by decide)
     "4om" (by decide),
   alias_resolution.2.2 "llama-3" (by decide)⟩

/-! ### Case-insensitivity of the validator -/

theorem char_toNat_ofNat_valid (n : Nat) (h : n.isValidChar) :
    (Char.ofNat n).toNat = n := by
  unfold Char.ofNat
  rw [dif_pos h]
  rfl

theorem char_toLower_idem (c : Char) : c.toLower.toLower = c.toLower := by
  by_cases h : c.toNat ≥ 65 ∧ c.toNat ≤ 90
  · have h1 : c.toLower = Char.ofNat (c.toNat + 32) := by
      simp only [Char.toLower]
      rw [if_pos h]
    have hv : Nat.isValidChar (c.toNat + 32) := Or.inl (by omega)
    have ht : (Char.ofNat (c.toNat + 32)).toNat = c.toNat + 32 :=
      char_toNat_ofNat_valid _ hv
    rw [h1]
    simp only [Char.toLower]
    rw [if_neg (by rw [ht]; omega)]
  · have h1 : c.toLower = c := by
      simp only [Char.toLower]
      rw [if_neg h]
    rw [h1]
    exact h1

theorem pyLower_idem (s : String) : pyLower (pyLower s) = pyLower s := by
  unfold pyLower
  exact congrArg String.mk
    (by rw [List.map_map]; exact List.map_congr_left (fun a _ => char_toLower_idem a))

/-- C10: model-name validation is case-insensitive — for every input
string, validating it yields the same outcome (the same canonical model
or the same rejection) as validating its lowercase, because
`validate_model_name` lowercases its input before comparing it against
the catalog. -/
theorem validate_model_name_case_insensitive (s : String) :
    validate_model_name s = validate_model_name (pyLower s) := by
  unfold validate_model_name
  rw [pyLower_idem]

/-! ### Event traces of the `prompt` command

Claims C5 and C9 are about the order of externally visible actions of
the `prompt` command (`src/lmterminal/cli.py` lines 149-240) and of
`prepare_and_generate_response` (`src/lmterminal/lib.py` lines 24-72).
The embedding records the sequence of those actions as a list of events:
reading standard input, loading the template file, raising the
conflicting-options usage error, printing the token/cost report, exiting
with status 0, raising an uncaught exception (non-zero exit), and
invoking `generate_response` (which issues the chat-completion network
call). Output-only echoes that none of the claims mention are not
recorded. -/
inductive Event where
  | readStdin
  | raiseConflict
  | loadTemplate
  | printCost
  | exitZero
  | raiseError
  | apiCall
deriving DecidableEq

/-- Embedding of the `prices` table of `estimate_prompt_cost`
(`src/lmterminal/gpt_integration.py` lines 132-151), with the Python
float literals carried as exact rationals. The trace model uses this
table only through key lookup (`prices[model]` raises `KeyError` for a
missing key); the cost arithmetic itself is IEEE-754 floating point and
is not modelled. -/
def prices : List (String × ℚ) :=
  [("gpt-3.5-turbo", 0.50),
   ("gpt-3.5-turbo-0125", 0.50),
   ("gpt-3.5-turbo-1106", 0.50),
   ("gpt-3.5-turbo-instruct", 1.50),
   ("gpt-4", 30),
   ("gpt-4-turbo-preview", 10),
   ("gpt-4-turbo", 10),
   ("gpt-4-turbo-2024-04-09", 0.01),
   ("gpt-4-0613", 0.03),
   ("gpt-4-1106-preview", 10),
   ("gpt-4-0125-preview", 10),
   ("gpt-4-32k", 60),
   ("gpt-4-32k-0613", 60),
   ("gpt-4o", 5),
   ("gpt-4o-2024-05-13", 5),
   ("gpt-4o-mini", 0.15),
   ("gpt-4o-mini-2024-07-18", 0.15)]

/-- Events of `display_tokens_count_and_cost` (`src/lmterminal/lib.py`
lines 251-269): `num_tokens_from_string` first (raises `KeyError` when
the tokenizer does not know the model — no fallback there), then
`estimate_prompt_cost` (whose `prices[model]` raises `KeyError` for a
model without a pricing entry), then the report is printed and
`sys.exit(0)` runs. `tiktoken_knows` abstracts whether the external
tokenizer has an encoding for the model. -/
def tokens_report_events (tiktoken_knows priced : Bool) : List Event :=
  if tiktoken_knows = false then [Event.raiseError]
  else if priced = false then [Event.raiseError]
  else [Event.printCost, Event.exitZero]

/-- The model in effect after the template step of
`prepare_and_generate_response` (`src/lmterminal/lib.py` lines 42-49):
the template's resolution runs only when a template was given, and the
caller keeps its own `model` unless it equals the default sentinel:

```
if template:
    system, prompt_input, template_model = handle_template(...)
    if model == DEFAULT_MODEL:
        model = template_model
```
-/
def resolved_model (d : TemplateDict) (template model : String) : String :=
  if template ≠ "" then
    if model = DEFAULT_MODEL then resolve_template_model d model else model
  else model

/-- Events of `prepare_and_generate_response` (`src/lmterminal/lib.py`
lines 24-72): the template file is loaded first when a template name was
given (the loaded document is the parameter `d`), then — when the
`--tokens` flag is set — the token/cost report runs and exits, otherwise
`generate_response` is invoked. -/
def prepare_and_generate_response_events (tiktoken : String → Bool) (d : TemplateDict)
    (template model : String) (tokens : Bool) : List Event :=
  (if template ≠ "" then [Event.loadTemplate] else []) ++
    (if tokens then
      tokens_report_events (tiktoken (resolved_model d template model))
        (dictGet prices (resolved_model d template model)).isSome
    else [Event.apiCall])

/-- Python `" ".join(prompt_input).strip()` applied to the positional
arguments (`src/lmterminal/cli.py` line 168). -/
def joined_args (args : List String) : String :=
  pyStrip (joinWith " " args)

/-- The prompt text after the piped-stdin append step
(`src/lmterminal/cli.py` lines 171-172): when stdin is not a terminal and
a positional prompt was given, piped content is prepended with a
separator line. -/
def prompt_input_after_pipe (args : List String) (tty : Bool) (stdin_content : String) :
    String :=
  if tty = false ∧ joined_args args ≠ "" then
    pyStrip stdin_content ++ "\n___\n" ++ joined_args args
  else joined_args args

/-- Stdin-read event of `src/lmterminal/cli.py` lines 171-172. -/
def pipe_read_events (args : List String) (tty : Bool) : List Event :=
  if tty = false ∧ joined_args args ≠ "" then [Event.readStdin] else []

/-- Stdin-read event of `src/lmterminal/cli.py` lines 174-201: when the
prompt is still empty, stdin is read — in the non-terminal branch as
piped content, in the terminal branch interactively. -/
def empty_prompt_read_events (args : List String) (tty : Bool) (stdin_content : String) :
    List Event :=
  if prompt_input_after_pipe args tty stdin_content = "" then [Event.readStdin] else []

/-- Event trace of the body of the `prompt` command
(`src/lmterminal/cli.py` lines 149-240): the stdin-reading steps run
first, the `--template`/`--system` conflict check only after them (line
203), and `prepare_and_generate_response` last. `d` is the template
document that the template store would return, `tiktoken` abstracts the
external tokenizer's model knowledge. -/
def prompt_command_events (args : List String) (system template model : String)
    (tokens tty : Bool) (stdin_content : String) (d : TemplateDict)
    (tiktoken : String → Bool) : List Event :=
  pipe_read_events args tty ++ empty_prompt_read_events args tty stdin_content ++
    (if system ≠ "" ∧ template ≠ "" then [Event.raiseConflict]
     else prepare_and_generate_response_events tiktoken d template model tokens)

theorem stdin_reads_shape (args : List String) (tty : Bool) (stdin_content : String) :
    ∃ k, pipe_read_events args tty ++ empty_prompt_read_events args tty stdin_content =
      List.replicate k Event.readStdin := by
  unfold pipe_read_events empty_prompt_read_events
  by_cases h1 : tty = false ∧ joined_args args ≠ ""
  · rw [if_pos h1]
    by_cases h2 : prompt_input_after_pipe args tty stdin_content = ""
    · rw [if_pos h2]; exact ⟨2, rfl⟩
    · rw [if_neg h2]; exact ⟨1, rfl⟩
  · rw [if_neg h1]
    by_cases h2 : prompt_input_after_pipe args tty stdin_content = ""
    · rw [if_pos h2]; exact ⟨1, rfl⟩
    · rw [if_neg h2]; exact ⟨0, rfl⟩

/-- Counterexample to C5: with a piped (non-terminal) standard input and
a positional prompt, supplying both `--system` and `--template` does
raise the usage error, but only after standard input has been read — the
conflict check of `src/lmterminal/cli.py` line 203 sits below the stdin
reading of lines 171-201, so the rejection does not happen before any
I/O as the claim states. -/
theorem conflict_after_stdin_counterexample :
    prompt_command_events ["hi"] "s" "t" DEFAULT_MODEL false false "" [] (fun _ => true) =
      [Event.readStdin, Event.raiseConflict] := by
  decide

/-- C5 (amended): whenever both a template name and a system override are
supplied, the `prompt` command fails with the conflicting-options usage
error before the template file is loaded and before any network call —
the only I/O that can precede the rejection is the reading of standard
input, and nothing at all follows it. -/
theorem conflicting_sources_rejected (args : List String) (system template model : String)
    (tokens tty : Bool) (stdin_content : String) (d : TemplateDict)
    (tiktoken : String → Bool) (hs : system ≠ "") (ht : template ≠ "") :
    ∃ k, prompt_command_events args system template model tokens tty stdin_content d tiktoken =
      List.replicate k Event.readStdin ++ [Event.raiseConflict] := by
  obtain ⟨k, hk⟩ := stdin_reads_shape args tty stdin_content
  unfold prompt_command_events
  rw [if_pos ⟨hs, ht⟩, hk]
  exact ⟨k, rfl⟩

/-- Witness for C5 (amended) at concrete inputs. -/
theorem conflicting_sources_rejected_witness :
    ∃ k, prompt_command_events ["hi"] "sys" "tem" DEFAULT_MODEL false true "" []
        (fun _ => true) =
      List.replicate k Event.readStdin ++ [Event.raiseConflict] :=
  conflicting_sources_rejected ["hi"] "sys" "tem" DEFAULT_MODEL false true "" []
    (fun _ => true) (by decide) (by decide)

theorem apiCall_not_in_tokens_report (a b : Bool) :
    Event.apiCall ∉ tokens_report_events a b := by
  unfold tokens_report_events
  by_cases h1 : a = false
  · rw [if_pos h1]; simp
  · rw [if_neg h1]
    by_cases h2 : b = false
    · rw [if_pos h2]; simp
    · rw [if_neg h2]; simp

theorem apiCall_not_in_replicate_reads (k : Nat) :
    Event.apiCall ∉ List.replicate k Event.readStdin := by
  simp [List.mem_replicate]

/-- Counterexample to C9: with the `--tokens` flag and a template whose
`model` field names a model absent from the pricing/tokenizer tables
(here `"my-llm"`), the command does not print a cost report and does not
exit with status 0 — `display_tokens_count_and_cost` raises an uncaught
`KeyError` (`prices[model]`, `src/lmterminal/gpt_integration.py` line
153) and the process dies with a non-zero status. The generation request
is still never sent. -/
theorem tokens_mode_unpriced_model_counterexample :
    prompt_command_events ["hi"] "" "t" DEFAULT_MODEL true true "" [("model", some "my-llm")]
        (fun _ => true) =
      [Event.loadTemplate, Event.raiseError] ∧
    Event.exitZero ∉ prompt_command_events ["hi"] "" "t" DEFAULT_MODEL true true ""
      [("model", some "my-llm")] (fun _ => true) ∧
    Event.printCost ∉ prompt_command_events ["hi"] "" "t" DEFAULT_MODEL true true ""
      [("model", some "my-llm")] (fun _ => true) ∧
    Event.apiCall ∉ prompt_command_events ["hi"] "" "t" DEFAULT_MODEL true true ""
      [("model", some "my-llm")] (fun _ => true) := by
  decide

/-- C9 (amended): whenever the `--tokens` flag is set, `generate_response`
is never invoked, so no chat-completion network call is issued; moreover,
when the options do not conflict and the resolved model is known to the
tokenizer and has a pricing entry, the command prints the token/cost
report and terminates with exit status 0, with no network call before
it. -/
theorem tokens_mode_never_generates (args : List String) (system template model : String)
    (tty : Bool) (stdin_content : String) (d : TemplateDict) (tiktoken : String → Bool) :
    Event.apiCall ∉
      prompt_command_events args system template model true tty stdin_content d tiktoken ∧
    (¬(system ≠ "" ∧ template ≠ "") →
      tiktoken (resolved_model d template model) = true →
      (dictGet prices (resolved_model d template model)).isSome = true →
      ∃ pre,
        prompt_command_events args system template model true tty stdin_content d tiktoken =
          pre ++ [Event.printCost, Event.exitZero] ∧ Event.apiCall ∉ pre) := by
  obtain ⟨k, hk⟩ := stdin_reads_shape args tty stdin_content
  constructor
  · unfold prompt_command_events
    rw [hk]
    intro hmem
    rcases List.mem_append.1 hmem with h | h
    · exact apiCall_not_in_replicate_reads k h
    · by_cases hc : system ≠ "" ∧ template ≠ ""
      · rw [if_pos hc] at h
        simp at h
      · rw [if_neg hc] at h
        unfold prepare_and_generate_response_events at h
        rcases List.mem_append.1 h with h2 | h2
        · by_cases htmp : template ≠ ""
          · rw [if_pos htmp] at h2; simp at h2
          · rw [if_neg htmp] at h2; simp at h2
        · rw [if_pos rfl] at h2
          exact apiCall_not_in_tokens_report _ _ h2
  · intro hnc hkn hpr
    refine ⟨List.replicate k Event.readStdin ++
      (if template ≠ "" then [Event.loadTemplate] else []), ?_, ?_⟩
    · unfold prompt_command_events
      rw [hk, if_neg hnc]
      unfold prepare_and_generate_response_events
      rw [if_pos rfl, hkn, hpr]
      have hrep : tokens_report_events true true = [Event.printCost, Event.exitZero] := rfl
      rw [hrep, List.append_assoc]
    · intro hmem
      rcases List.mem_append.1 hmem with h | h
      · exact apiCall_not_in_replicate_reads k h
      · by_cases htmp : template ≠ ""
        · rw [if_pos htmp] at h; simp at h
        · rw [if_neg htmp] at h; simp at h

/-- Witness for C9 (amended) at concrete inputs: `--tokens` with the
default model and no template prints the report and exits 0 without a
network call. -/
theorem tokens_mode_never_generates_witness :
    Event.apiCall ∉
      prompt_command_events ["hi"] "" "" "gpt-4o-mini" true true "" [] (fun _ => true) ∧
    ∃ pre,
      prompt_command_events ["hi"] "" "" "gpt-4o-mini" true true "" [] (fun _ => true) =
        pre ++ [Event.printCost, Event.exitZero] ∧ Event.apiCall ∉ pre :=
  ⟨(tokens_mode_never_generates ["hi"] "" "" "gpt-4o-mini" true "" []
      (fun _ => true)).1,
   (tokens_mode_never_generates ["hi"] "" "" "gpt-4o-mini" true "" []
      (fun _ => true)).2 (by decide) rfl (by decide)⟩

end LMT
